import Mathlib

/-!
Verification of the provider-selection-and-fallback engine of the
fazner-ai-platform repository.

The engine lives in two TypeScript sources:
* `backend/src/utils/ai-providers.ts` — the `AIProvider` descriptor type,
  the static `AI_PROVIDERS` registry, and the `AIManager` class
  (credential check, selection, quota tracking, fallback chain).
* the `AIController` class — request processing, executor response
  normalisation and cost computation, and the fallback loop.

The embedding below translates those sources directly.  JavaScript numbers
that carry money are modelled as `ℚ`; counters and token counts as `Nat`.
`process.env` is modelled as a function `String → Option String` (absent
variable = `none`).  A JavaScript `Date` is modelled by its calendar fields;
`Date.prototype.getDate()` returns the day of the month, which is exactly
what the source compares on rollover.  The `AIManager` functions close over
the module-level `AI_PROVIDERS` constant; here the registry is an explicit
first argument so that theorems can quantify over provider configurations,
and `AI_PROVIDERS` below is the concrete constant from the source.
Cost constants are written as rationals in lowest terms via the `Rat`
constructor (`⟨3, 200, _, _⟩` is the source's `0.015`) so that quota and
cost arithmetic reduces definitionally.
-/

/-- Model of `process.env`: a variable is `none` when unset. -/
def Env : Type := String → Option String

/-- The four capability flags of `AIProvider.features`. -/
inductive Feature where
  | chat
  | codeGeneration
  | imageGeneration
  | embeddings
deriving DecidableEq, Repr

/-- The `features` object of an `AIProvider`. -/
structure Features where
  chat : Bool
  codeGeneration : Bool
  imageGeneration : Bool
  embeddings : Bool
deriving DecidableEq, Repr

/-- Dynamic lookup `provider.features[feature]`. -/
def Features.get (f : Features) : Feature → Bool
  | .chat => f.chat
  | .codeGeneration => f.codeGeneration
  | .imageGeneration => f.imageGeneration
  | .embeddings => f.embeddings

/-- The `rateLimit` object of an `AIProvider`. -/
structure RateLimit where
  requestsPerMinute : Nat
  requestsPerDay : Nat
deriving DecidableEq, Repr

/-- The `pricing` object of an `AIProvider`. -/
structure Pricing where
  costPer1KTokens : ℚ
  currency : String
deriving DecidableEq, Repr

/-- The `AIProvider` descriptor interface. -/
structure AIProvider where
  id : String
  name : String
  baseUrl : String
  apiKeyEnv : String
  models : List String
  priority : Nat
  rateLimit : RateLimit
  features : Features
  pricing : Pricing
deriving DecidableEq, Repr

/-- Registry entry 1 of `AI_PROVIDERS`. -/
def openrouterProvider : AIProvider :=
  { id := "openrouter"
    name := "OpenRouter (MiniMax M2)"
    baseUrl := "https://openrouter.ai/api/v1"
    apiKeyEnv := "OPENROUTER_API_KEY"
    models := ["minimax/maximum-120k-01", "minimax/abab6.5s-chat",
                 "anthropic/claude-3.5-sonnet", "openai/gpt-4",
                 "meta-llama/llama-3.1-70b-instruct"]
    priority := 1
    rateLimit := { requestsPerMinute := 100, requestsPerDay := 10000 }
    features := { chat := true, codeGeneration := true,
                    imageGeneration := false, embeddings := true }
    pricing := { costPer1KTokens := ⟨1, 1000, by decide, by decide⟩, currency := "USD" } }

/-- Registry entry 2 of `AI_PROVIDERS`. -/
def openaiProvider : AIProvider :=
  { id := "openai"
    name := "OpenAI GPT-4"
    baseUrl := "https://api.openai.com/v1"
    apiKeyEnv := "OPENAI_API_KEY"
    models := ["gpt-4", "gpt-4-turbo", "gpt-3.5-turbo"]
    priority := 2
    rateLimit := { requestsPerMinute := 50, requestsPerDay := 5000 }
    features := { chat := true, codeGeneration := true,
                    imageGeneration := true, embeddings := true }
    pricing := { costPer1KTokens := ⟨3, 100, by decide, by decide⟩, currency := "USD" } }

/-- Registry entry 3 of `AI_PROVIDERS`. -/
def anthropicProvider : AIProvider :=
  { id := "anthropic"
    name := "Anthropic Claude"
    baseUrl := "https://api.anthropic.com/v1"
    apiKeyEnv := "ANTHROPIC_API_KEY"
    models := ["claude-3-5-sonnet-20241022", "claude-3-5-haiku-20241022",
                 "claude-3-opus-20240229"]
    priority := 3
    rateLimit := { requestsPerMinute := 30, requestsPerDay := 3000 }
    features := { chat := true, codeGeneration := true,
                    imageGeneration := false, embeddings := false }
    pricing := { costPer1KTokens := ⟨3, 200, by decide, by decide⟩, currency := "USD" } }

/-- Registry entry 4 of `AI_PROVIDERS`. -/
def cohereProvider : AIProvider :=
  { id := "cohere"
    name := "Cohere Command"
    baseUrl := "https://api.cohere.ai/v1"
    apiKeyEnv := "COHERE_API_KEY"
    models := ["command", "command-nightly", "command-r"]
    priority := 4
    rateLimit := { requestsPerMinute := 20, requestsPerDay := 2000 }
    features := { chat := true, codeGeneration := true,
                    imageGeneration := false, embeddings := true }
    pricing := { costPer1KTokens := ⟨3, 2000, by decide, by decide⟩, currency := "USD" } }

/-- Registry entry 5 of `AI_PROVIDERS`. -/
def groqProvider : AIProvider :=
  { id := "groq"
    name := "Groq Llama"
    baseUrl := "https://api.groq.com/openai/v1"
    apiKeyEnv := "GROQ_API_KEY"
    models := ["llama-3.1-70b-versatile", "llama-3.1-8b-instant",
                 "mixtral-8x7b-32768"]
    priority := 5
    rateLimit := { requestsPerMinute := 25, requestsPerDay := 2500 }
    features := { chat := true, codeGeneration := true,
                    imageGeneration := false, embeddings := false }
    pricing := { costPer1KTokens := ⟨1, 10000, by decide, by decide⟩, currency := "USD" } }

/-- Registry entry 6 of `AI_PROVIDERS`. -/
def togetherProvider : AIProvider :=
  { id := "together"
    name := "Together AI"
    baseUrl := "https://api.together.xyz/v1"
    apiKeyEnv := "TOGETHER_API_KEY"
    models := ["meta-llama/Llama-3.1-70B-Instruct-Turbo",
                 "mistralai/Mixtral-8x7B-Instruct-v0.1",
                 "deepseek-chat/deepseek-chat"]
    priority := 6
    rateLimit := { requestsPerMinute := 40, requestsPerDay := 4000 }
    features := { chat := true, codeGeneration := true,
                    imageGeneration := false, embeddings := true }
    pricing := { costPer1KTokens := ⟨1, 1250, by decide, by decide⟩, currency := "USD" } }

/-- The static `AI_PROVIDERS` registry from `ai-providers.ts`. -/
def AI_PROVIDERS : List AIProvider :=
  [openrouterProvider, openaiProvider, anthropicProvider,
   cohereProvider, groqProvider, togetherProvider]

/-- A JavaScript `Date`, reduced to its calendar fields.  `getDate()`
returns the day of the month only. -/
structure JSDate where
  year : Nat
  month : Nat
  day : Nat
deriving DecidableEq, Repr

/-- Model of `Date.prototype.getDate()`: the day of the month. -/
def JSDate.getDate (d : JSDate) : Nat := d.day

/-- Model of `String.prototype.trim`: strip whitespace from both ends.  (Stated
over the character list so that it reduces definitionally.) -/
def jsTrim (s : String) : String :=
  ⟨((s.data.dropWhile Char.isWhitespace).reverse.dropWhile
      Char.isWhitespace).reverse⟩

/-- Model of `AIManager.hasApiKey`: the referenced env variable exists, is truthy
(non-empty) and does not trim to the empty string. -/
def hasApiKey (env : Env) (provider : AIProvider) : Bool :=
  match env provider.apiKeyEnv with
  | none => false
  | some apiKey => apiKey ≠ "" && jsTrim apiKey ≠ ""

/-- Stable insertion used to model `Array.prototype.sort((a, b) =>
a.priority - b.priority)` (stable in JS). -/
def insertByPriority (p : AIProvider) : List AIProvider → List AIProvider
  | [] => [p]
  | q :: rest =>
    if q.priority < p.priority then q :: insertByPriority p rest
    else p :: q :: rest

/-- Stable sort by ascending `priority`. -/
def sortByPriority (l : List AIProvider) : List AIProvider :=
  l.foldr insertByPriority []

/-- One entry of the `usageStats` map: `{ requests, lastReset }`. -/
structure UsageStat where
  requests : Nat
  lastReset : JSDate
deriving DecidableEq, Repr

/-- The mutable state of an `AIManager` instance: the construction-time
snapshot `availableProviders` (a `Map` keyed by id, kept in insertion
order) and the `usageStats` map. -/
structure ManagerState where
  availableProviders : List AIProvider
  usageStats : List (String × UsageStat)
deriving DecidableEq, Repr

/-- The `AIManager` constructor: snapshot the providers that have an API
key in the current environment, and give each a zero usage counter
stamped with the construction time. -/
def mkAIManager (registry : List AIProvider) (env : Env) (now : JSDate) :
    ManagerState :=
  let avail := registry.filter (fun p => hasApiKey env p)
  { availableProviders := avail
    usageStats := avail.map (fun p => (p.id, { requests := 0, lastReset := now })) }

/-- Model of `AIManager.getAvailableProviders`: re-reads the environment on every
call, filters the static registry by `hasApiKey`, sorts by priority. -/
def getAvailableProviders (registry : List AIProvider) (env : Env) :
    List AIProvider :=
  sortByPriority (registry.filter (fun p => hasApiKey env p))

/-- The optional `preferences` argument of `AIManager.getBestProvider`. -/
structure BestPrefs where
  feature : Option Feature
  maxCostPer1KTokens : Option ℚ
deriving Repr

/-- Model of `AIManager.getBestProvider`: filter the (credential-filtered)
candidates by feature and — only when `maxCostPer1KTokens` is truthy,
i.e. present and non-zero — by cost, sort by priority, return the head.
No quota state is consulted. -/
def getBestProvider (registry : List AIProvider) (env : Env)
    (preferences : Option BestPrefs) : Option AIProvider :=
  let candidates := getAvailableProviders registry env
  let byFeature :=
    match preferences with
    | some prefs =>
      match prefs.feature with
      | some ft => candidates.filter (fun p => p.features.get ft)
      | none => candidates
    | none => candidates
  let byCost :=
    match preferences with
    | some prefs =>
      match prefs.maxCostPer1KTokens with
      | some c =>
        if c ≠ 0 then
          byFeature.filter (fun p => p.pricing.costPer1KTokens ≤ c)
        else byFeature
      | none => byFeature
    | none => byFeature
  (sortByPriority byCost).head?

/-- Overwrite the `usageStats` entry for `providerId` (the source mutates
the object held in the `Map`). -/
def setStats (l : List (String × UsageStat)) (providerId : String)
    (s : UsageStat) : List (String × UsageStat) :=
  l.map (fun e => if e.1 = providerId then (providerId, s) else e)

/-- Look up the usage counter of a provider. -/
def statsFor (st : ManagerState) (providerId : String) : Option UsageStat :=
  (st.usageStats.find? (fun e => e.1 == providerId)).map (·.2)

/-- Model of `AIManager.canUseProvider`: unknown providers (not snapshotted at
construction) are unusable; a provider with no stats entry is usable;
otherwise the counter is lazily reset when `getDate()` (day of month)
differs from the last reset's, and the daily limit is checked.  Returns
the boolean together with the possibly-updated state, since the rollover
mutates `usageStats` in place. -/
def canUseProvider (st : ManagerState) (now : JSDate) (providerId : String) :
    Bool × ManagerState :=
  match st.availableProviders.find? (fun p => p.id == providerId) with
  | none => (false, st)
  | some provider =>
    match st.usageStats.find? (fun e => e.1 == providerId) with
    | none => (true, st)
    | some (_, stats) =>
      if now.getDate ≠ stats.lastReset.getDate then
        (decide (0 < provider.rateLimit.requestsPerDay),
         { st with usageStats :=
             setStats st.usageStats providerId { requests := 0, lastReset := now } })
      else
        (decide (stats.requests < provider.rateLimit.requestsPerDay), st)

/-- Model of `AIManager.recordUsage`: increment the counter if a stats entry
exists; silently do nothing otherwise.  No date is consulted and no
rollover happens here. -/
def recordUsage (st : ManagerState) (providerId : String) : ManagerState :=
  match st.usageStats.find? (fun e => e.1 == providerId) with
  | none => st
  | some (_, stats) =>
    { st with usageStats :=
        setStats st.usageStats providerId { stats with requests := stats.requests + 1 } }

/-- Model of `AIManager.createProviderChain`: credentialed providers offering the
task type, sorted by priority. -/
def createProviderChain (registry : List AIProvider) (env : Env)
    (taskType : Feature) : List AIProvider :=
  sortByPriority ((getAvailableProviders registry env).filter
    (fun p => p.features.get taskType))

/-- Model of `AIManager.getCostOptimalProvider`: a `reduce` over the chain keeping
the strictly cheaper candidate (ties keep the earlier, i.e. higher
priority, one). -/
def getCostOptimalProvider (registry : List AIProvider) (env : Env)
    (taskType : Feature) : Option AIProvider :=
  (createProviderChain registry env taskType).foldl
    (fun best current =>
      match best with
      | none => some current
      | some b =>
        if current.pricing.costPer1KTokens < b.pricing.costPer1KTokens then
          some current
        else some b)
    none

/-- Model of `AIManager.getFastestProvider`: hardcoded promotion of `groq`,
otherwise the chain head. -/
def getFastestProvider (registry : List AIProvider) (env : Env)
    (taskType : Feature) : Option AIProvider :=
  let providers := createProviderChain registry env taskType
  match providers.find? (fun p => p.id == "groq") with
  | some p => some p
  | none => providers.head?

/-!
## The `AIController` (request processing, executor, fallback)

The controller's outbound HTTP call is the one effect that cannot be
embedded; a single logical request is therefore run against an oracle
`outcomes : String → CallOutcome` giving, per provider id, what that
provider's `/chat/completions` endpoint would do for this request.  The
run returns the final HTTP-level response together with the final manager
state, the list of dispatched provider attempts, and the list of
`recordUsage` invocations — the last two are the observation the claims
about accounting and retry behaviour quantify over.  Fields of the
response derived from the wall clock (`Date.now()` ids, timestamps,
latency) are outside the embedding.
-/

/-- Values of `request.preferences.optimizeFor`. -/
inductive OptimizeGoal where
  | cost
  | speed
  | quality
deriving DecidableEq, Repr

/-- The `request.preferences` object. -/
structure AIPreferences where
  optimizeFor : Option OptimizeGoal
  maxCost : Option ℚ
deriving Repr

/-- The inbound `AIRequest` body. -/
structure AIRequest where
  message : String
  provider : Option String
  model : Option String
  preferences : Option AIPreferences
  systemPrompt : Option String
deriving Repr

/-- The JSON body a provider returns on HTTP 200, reduced to the fields
the controller reads.  Optional fields model absent JSON members. -/
structure ProviderResponseData where
  id : Option String
  model : String
  content : Option String
  prompt_tokens : Option Nat
  completion_tokens : Option Nat
  finish_reason : Option String
deriving Repr

/-- What one provider's endpoint does for this logical request. -/
inductive CallOutcome where
  | success (data : ProviderResponseData)
  | failure (status : Nat) (statusText : String)
deriving Repr

/-- Whether an outcome is the failure case. -/
def CallOutcome.isFailure : CallOutcome → Bool
  | .success _ => false
  | .failure _ _ => true

/-- The `usage` block of the canonical `AIResponse`. -/
structure Usage where
  promptTokens : Nat
  completionTokens : Nat
  totalTokens : Nat
  cost : ℚ
  currency : String
deriving DecidableEq, Repr

/-- The canonical `AIResponse` (time-derived metadata omitted). -/
structure AIResponse where
  provider : String
  model : String
  content : String
  usage : Usage
  finishReason : String
deriving DecidableEq, Repr

/-- The success path of `AIController.executeAIRequest`: parse the
provider's JSON into an `AIResponse`.  Token counts absent from the
response default to 0; `cost = (totalTokens / 1000) * costPer1KTokens`. -/
def parseProviderResponse (provider : AIProvider)
    (data : ProviderResponseData) : AIResponse :=
  let promptTokens := data.prompt_tokens.getD 0
  let completionTokens := data.completion_tokens.getD 0
  let totalTokens := promptTokens + completionTokens
  let cost := ((totalTokens : ℚ) / 1000) * provider.pricing.costPer1KTokens
  { provider := provider.id
    model := data.model
    content := data.content.getD "No response generated"
    usage := { promptTokens := promptTokens
               completionTokens := completionTokens
               totalTokens := totalTokens
               cost := cost
               currency := provider.pricing.currency }
    finishReason := data.finish_reason.getD "unknown" }

/-- Model of `AIController.executeAIRequest`: throw on a non-2xx response,
otherwise normalise it.  (The request body itself does not influence the
modelled outcome.) -/
def executeAIRequest (outcomes : String → CallOutcome)
    (provider : AIProvider) (_request : AIRequest) : Except String AIResponse :=
  match outcomes provider.id with
  | .failure status statusText =>
    .error ("AI provider " ++ provider.id ++ " failed: "
            ++ toString status ++ " " ++ statusText)
  | .success data => .ok (parseProviderResponse provider data)

/-- Model of `AIController.selectOptimalProvider`.  An explicitly requested
provider is returned when it is found among the currently credentialed
providers and `canUseProvider` passes; otherwise the source falls
through to the preference switch and finally to `getBestProvider`.  The
state is threaded because `canUseProvider` may perform a quota rollover.
On the `quality` branch the source passes the cost bound under the key
`maxCost`, which `getBestProvider` does not read, so no cost filter is
applied there. -/
def selectOptimalProvider (registry : List AIProvider) (env : Env)
    (st : ManagerState) (now : JSDate) (request : AIRequest) :
    Option AIProvider × ManagerState :=
  let explicitPick : Option AIProvider × ManagerState :=
    match request.provider with
    | some pid =>
      if pid ≠ "" then
        match (getAvailableProviders registry env).find? (fun p => p.id == pid) with
        | some provider =>
          let cu := canUseProvider st now provider.id
          if cu.1 then (some provider, cu.2) else (none, cu.2)
        | none => (none, st)
      else (none, st)
    | none => (none, st)
  match explicitPick.1 with
  | some provider => (some provider, explicitPick.2)
  | none =>
    match request.preferences with
    | some prefs =>
      match prefs.optimizeFor with
      | some .cost => (getCostOptimalProvider registry env .chat, explicitPick.2)
      | some .speed => (getFastestProvider registry env .chat, explicitPick.2)
      | some .quality =>
        (getBestProvider registry env
          (some { feature := some .chat, maxCostPer1KTokens := none }),
         explicitPick.2)
      | none =>
        (getBestProvider registry env
          (some { feature := some .chat, maxCostPer1KTokens := none }),
         explicitPick.2)
    | none =>
      (getBestProvider registry env
        (some { feature := some .chat, maxCostPer1KTokens := none }),
       explicitPick.2)

/-- The HTTP-level response the controller sends for one request. -/
inductive ControllerResponse where
  /-- HTTP 400: missing/invalid `message`. -/
  | badRequest (error : String)
  /-- HTTP 503: no provider could be selected; body lists configured provider
  names. -/
  | noProviders (error : String) (availableProviders : List String)
  /-- HTTP 200: a canonical result, with a fallback note when it came from the
  fallback loop. -/
  | success (resp : AIResponse) (note : Option String)
  /-- HTTP 503: primary and every fallback candidate failed; body carries the
  original error and the configured provider names. -/
  | allFailed (error : String) (originalError : String)
      (availableProviders : List String)
deriving Repr

/-- Observable outcome of one logical request: the response, the final
manager state, the providers to which an outbound call was dispatched
(in order, with repetitions), and the providers for which `recordUsage`
was invoked (in order, with repetitions). -/
structure RunResult where
  response : ControllerResponse
  state : ManagerState
  attempts : List String
  recorded : List String
deriving Repr

/-- The candidate list built inside `AIController.handleFallback`:
the chat chain minus the provider id named in the request body (only
that one — an auto-selected primary is not excluded), capped at 2. -/
def fallbackProviders (registry : List AIProvider) (env : Env)
    (request : AIRequest) : List AIProvider :=
  ((createProviderChain registry env .chat).filter
    (fun p =>
      match request.provider with
      | some pid => p.id ≠ pid
      | none => true)).take 2

/-- The loop body of `AIController.handleFallback`: for each candidate in
order, skip it when `canUseProvider` fails (no call dispatched), else
dispatch; a success responds immediately with a fallback note, a failure
moves on.  `recordUsage` is never invoked here. -/
def handleFallbackLoop (outcomes : String → CallOutcome) (now : JSDate)
    (request : AIRequest) (originalError : String)
    (availableNames : List String) :
    List AIProvider → ManagerState → List String →
    ControllerResponse × ManagerState × List String
  | [], st, attempts =>
    (.allFailed "All AI providers are currently unavailable" originalError
       availableNames, st, attempts)
  | p :: rest, st, attempts =>
    let cu := canUseProvider st now p.id
    if cu.1 then
      match executeAIRequest outcomes p { request with provider := some p.id } with
      | .ok resp =>
        (.success resp (some ("Fallback response from " ++ p.name ++ " after "
            ++ originalError)), cu.2, attempts ++ [p.id])
      | .error _ =>
        handleFallbackLoop outcomes now request originalError availableNames
          rest cu.2 (attempts ++ [p.id])
    else
      handleFallbackLoop outcomes now request originalError availableNames
        rest st attempts

/-- Model of `AIController.handleFallback`. -/
def handleFallback (registry : List AIProvider) (env : Env)
    (outcomes : String → CallOutcome) (now : JSDate) (request : AIRequest)
    (originalError : String) (st : ManagerState) (attempts : List String) :
    ControllerResponse × ManagerState × List String :=
  handleFallbackLoop outcomes now request originalError
    ((getAvailableProviders registry env).map (·.name))
    (fallbackProviders registry env request) st attempts

/-- Model of `AIController.processAIRequest`: validate the message, select a
provider, dispatch; on success `recordUsage` the selected provider and
respond; on a thrown error enter the fallback handler (which never
records usage). -/
def processAIRequest (registry : List AIProvider) (env : Env)
    (outcomes : String → CallOutcome) (now : JSDate) (request : AIRequest)
    (st : ManagerState) : RunResult :=
  if request.message = "" then
    { response := .badRequest "Message is required and must be a string"
      state := st, attempts := [], recorded := [] }
  else
    match selectOptimalProvider registry env st now request with
    | (none, st1) =>
      { response := .noProviders "No available AI providers configured"
          ((getAvailableProviders registry env).map (·.name))
        state := st1, attempts := [], recorded := [] }
    | (some provider, st1) =>
      match executeAIRequest outcomes provider request with
      | .ok resp =>
        { response := .success resp none
          state := recordUsage st1 provider.id
          attempts := [provider.id]
          recorded := [provider.id] }
      | .error e =>
        let result :=
          handleFallback registry env outcomes now request e st1 [provider.id]
        { response := result.1, state := result.2.1
          attempts := result.2.2, recorded := [] }

/-!
## Concrete fixtures

Environments, dates, requests and call outcomes used to instantiate the
theorems below on concrete inputs.
-/

/-- Environment in which every variable is set to a non-blank value. -/
def envAllKeys : Env := fun _ => some "sk-test"

/-- Environment in which only OpenRouter's key is set. -/
def envOpenrouterOnly : Env :=
  fun k => if k = "OPENROUTER_API_KEY" then some "sk-or" else none

/-- Environment in which every key except Anthropic's is set. -/
def envNoAnthropic : Env :=
  fun k => if k = "ANTHROPIC_API_KEY" then none else some "sk-test"

/-- A reference day. -/
def day0 : JSDate := ⟨2024, 5, 10⟩

/-- The calendar day after `day0` (different `getDate()`). -/
def nextDay : JSDate := ⟨2024, 5, 11⟩

/-- One month after `day0`: a different calendar day with the same
`getDate()` value. -/
def monthLater : JSDate := ⟨2024, 6, 10⟩

/-- A manager constructed on `day0` with every credential present. -/
def st0 : ManagerState := mkAIManager AI_PROVIDERS envAllKeys day0

/-- The manager state after one recorded OpenRouter request. -/
def stUsedOnce : ManagerState := recordUsage st0 "openrouter"

/-- Scenario provider A of the quota-pruning scenario: priority 1,
daily quota 1, chat-capable. -/
def providerA : AIProvider :=
  { id := "a"
    name := "Provider A"
    baseUrl := "https://a.example/v1"
    apiKeyEnv := "A_API_KEY"
    models := ["a-model"]
    priority := 1
    rateLimit := { requestsPerMinute := 10, requestsPerDay := 1 }
    features := { chat := true, codeGeneration := false,
                  imageGeneration := false, embeddings := false }
    pricing := { costPer1KTokens := ⟨1, 1000, by decide, by decide⟩
                 currency := "USD" } }

/-- Scenario provider B: priority 2, ample quota, chat-capable. -/
def providerB : AIProvider :=
  { id := "b"
    name := "Provider B"
    baseUrl := "https://b.example/v1"
    apiKeyEnv := "B_API_KEY"
    models := ["b-model"]
    priority := 2
    rateLimit := { requestsPerMinute := 10, requestsPerDay := 100 }
    features := { chat := true, codeGeneration := false,
                  imageGeneration := false, embeddings := false }
    pricing := { costPer1KTokens := ⟨1, 500, by decide, by decide⟩
                 currency := "USD" } }

/-- The two-provider registry of the quota-pruning scenario. -/
def registryAB : List AIProvider := [providerA, providerB]

/-- A manager over `registryAB` in which provider A has already been used
once today, exhausting its daily quota of 1. -/
def stABused : ManagerState :=
  recordUsage (mkAIManager registryAB envAllKeys day0) "a"

/-- A plain chat request with no explicit provider and no preferences. -/
def chatRequest : AIRequest :=
  { message := "hello", provider := none, model := none,
    preferences := none, systemPrompt := none }

/-- The chat request with an explicit `provider: "openai"`. -/
def openaiRequest : AIRequest := { chatRequest with provider := some "openai" }

/-- A well-formed provider response body. -/
def okData : ProviderResponseData :=
  { id := some "resp-1", model := "gpt-4", content := some "hi"
    prompt_tokens := some 10, completion_tokens := some 5
    finish_reason := some "stop" }

/-- Outcome oracle: OpenRouter's endpoint returns HTTP 500, every other
provider succeeds. -/
def outcomesOpenrouterFails : String → CallOutcome := fun pid =>
  if pid = "openrouter" then .failure 500 "Internal Server Error"
  else .success okData

/-- Outcome oracle: every provider's endpoint returns HTTP 503. -/
def outcomesAllFail : String → CallOutcome :=
  fun _ => .failure 503 "Service Unavailable"

/-- A provider priced at the claim's example rate of 0.002 per 1K
tokens. -/
def costExampleProvider : AIProvider :=
  { providerA with
    pricing := { costPer1KTokens := ⟨1, 500, by decide, by decide⟩
                 currency := "USD" } }

/-- A provider response with 1000 prompt and 500 completion tokens. -/
def costExampleData : ProviderResponseData :=
  { id := none, model := "gpt-4", content := some "answer"
    prompt_tokens := some 1000, completion_tokens := some 500
    finish_reason := some "stop" }

/-- Whether a controller response is the all-providers-failed 503 carrying
exactly the given provider-name list. -/
def respAllFailedWith (resp : ControllerResponse) (names : List String) :
    Bool :=
  match resp with
  | .allFailed _ _ availableNames => availableNames == names
  | _ => false

/-- Whether a controller response is an HTTP 200 success. -/
def respIsSuccess : ControllerResponse → Bool
  | .success _ _ => true
  | _ => false

/-- One full request run with every credential present: the auto-selected
primary (OpenRouter) fails, every other provider succeeds. -/
def runPrimaryFails : RunResult :=
  processAIRequest AI_PROVIDERS envAllKeys outcomesOpenrouterFails day0
    chatRequest st0

/-- One full request run in which every provider's endpoint fails. -/
def runAllFail : RunResult :=
  processAIRequest AI_PROVIDERS envAllKeys outcomesAllFail day0
    chatRequest st0

/-!
## Helper lemmas
-/

/-- Inserting with `insertByPriority` is a permutation of consing. -/
theorem insertByPriority_perm (p : AIProvider) (l : List AIProvider) :
    List.Perm (insertByPriority p l) (p :: l) := by
  induction l with
  | nil => exact List.Perm.refl _
  | cons q rest ih =>
    by_cases h : q.priority < p.priority
    · simp only [insertByPriority, if_pos h]
      exact (ih.cons q).trans (List.Perm.swap p q rest)
    · simp only [insertByPriority, if_neg h]
      exact List.Perm.refl _

/-- The priority sort permutes its input. -/
theorem sortByPriority_perm (l : List AIProvider) :
    List.Perm (sortByPriority l) l := by
  induction l with
  | nil => exact List.Perm.refl _
  | cons p rest ih =>
    exact (insertByPriority_perm p (sortByPriority rest)).trans (ih.cons p)

/-- Membership is preserved by the priority sort. -/
theorem mem_sortByPriority {p : AIProvider} {l : List AIProvider} :
    p ∈ sortByPriority l ↔ p ∈ l :=
  (sortByPriority_perm l).mem_iff

/-- Insertion preserves sortedness by priority. -/
theorem insertByPriority_pairwise (p : AIProvider) {l : List AIProvider}
    (h : l.Pairwise (fun a b => a.priority ≤ b.priority)) :
    (insertByPriority p l).Pairwise (fun a b => a.priority ≤ b.priority) := by
  induction l with
  | nil => simp [insertByPriority]
  | cons q rest ih =>
    rcases List.pairwise_cons.mp h with ⟨hq, hrest⟩
    by_cases hlt : q.priority < p.priority
    · simp only [insertByPriority, if_pos hlt]
      refine List.pairwise_cons.mpr ⟨?_, ih hrest⟩
      intro x hx
      rcases List.mem_cons.mp ((insertByPriority_perm p rest).mem_iff.mp hx) with
        hxp | hxr
      · exact hxp ▸ Nat.le_of_lt hlt
      · exact hq x hxr
    · simp only [insertByPriority, if_neg hlt]
      have hpq : p.priority ≤ q.priority := Nat.le_of_not_lt hlt
      refine List.pairwise_cons.mpr ⟨?_, h⟩
      intro x hx
      rcases List.mem_cons.mp hx with hxq | hxr
      · exact hxq ▸ hpq
      · exact Nat.le_trans hpq (hq x hxr)

/-- The priority sort produces a list sorted by ascending priority. -/
theorem sortByPriority_pairwise (l : List AIProvider) :
    (sortByPriority l).Pairwise (fun a b => a.priority ≤ b.priority) := by
  induction l with
  | nil => exact List.Pairwise.nil
  | cons p rest ih => exact insertByPriority_pairwise p ih

/-- Overwriting a present key makes the lookup return the new entry. -/
theorem find?_setStats {l : List (String × UsageStat)} {pid : String}
    {e : String × UsageStat} (s : UsageStat)
    (h : l.find? (fun e => e.1 == pid) = some e) :
    (setStats l pid s).find? (fun e => e.1 == pid) = some (pid, s) := by
  induction l with
  | nil => simp at h
  | cons a rest ih =>
    by_cases ha : a.1 = pid
    · simp [setStats, List.find?_cons, ha]
    · have ha' : (a.1 == pid) = false := beq_false_of_ne ha
      rw [List.find?_cons_of_neg _ (by simp [ha'])] at h
      simpa [setStats, ha, List.find?_cons_of_neg, ha'] using ih h

/-- The usage counter found by `recordUsage` is incremented by one and
its `lastReset` stamp is untouched: `recordUsage` never rolls the
window over. -/
theorem statsFor_recordUsage {st : ManagerState} {pid : String}
    {stats : UsageStat}
    (h : st.usageStats.find? (fun e => e.1 == pid) = some (pid, stats)) :
    statsFor (recordUsage st pid) pid =
      some { requests := stats.requests + 1, lastReset := stats.lastReset } := by
  unfold recordUsage
  rw [h]
  unfold statsFor
  rw [find?_setStats _ h]
  rfl

/-- Specification of the `reduce` inside `getCostOptimalProvider`: over a
priority-sorted candidate list it keeps the first provider attaining the
minimum cost, which therefore also has the least priority value among
cost ties. -/
theorem costFold_spec (l : List AIProvider) (b : AIProvider)
    (hsort : (b :: l).Pairwise (fun a c => a.priority ≤ c.priority)) :
    ∃ r, l.foldl (fun best current =>
        match best with
        | none => some current
        | some bb =>
          if current.pricing.costPer1KTokens < bb.pricing.costPer1KTokens then
            some current
          else some bb) (some b) = some r ∧
      r ∈ b :: l ∧
      (∀ q ∈ b :: l, r.pricing.costPer1KTokens ≤ q.pricing.costPer1KTokens) ∧
      (∀ q ∈ b :: l, q.pricing.costPer1KTokens = r.pricing.costPer1KTokens →
        r.priority ≤ q.priority) := by
  induction l generalizing b with
  | nil =>
    refine ⟨b, rfl, List.mem_singleton.mpr rfl, ?_, ?_⟩
    · intro q hq
      rw [List.mem_singleton.mp hq]
    · intro q hq _
      rw [List.mem_singleton.mp hq]
  | cons c rest ih =>
    have hparts := List.pairwise_cons.mp hsort
    have hbc : b.priority ≤ c.priority :=
      hparts.1 c (List.mem_cons_self c rest)
    by_cases hlt : c.pricing.costPer1KTokens < b.pricing.costPer1KTokens
    · obtain ⟨r, heq, hmem, hmin, htie⟩ := ih c hparts.2
      refine ⟨r, ?_, List.mem_cons_of_mem b hmem, ?_, ?_⟩
      · simpa [hlt] using heq
      · intro q hq
        rcases List.mem_cons.mp hq with hqb | hqtail
        · subst hqb
          exact le_of_lt (lt_of_le_of_lt (hmin c (List.mem_cons_self c rest)) hlt)
        · exact hmin q hqtail
      · intro q hq hqcost
        rcases List.mem_cons.mp hq with hqb | hqtail
        · subst hqb
          have h1 : r.pricing.costPer1KTokens < q.pricing.costPer1KTokens :=
            lt_of_le_of_lt (hmin c (List.mem_cons_self c rest)) hlt
          exact absurd hqcost (ne_of_gt h1)
        · exact htie q hqtail hqcost
    · have hge : b.pricing.costPer1KTokens ≤ c.pricing.costPer1KTokens :=
        le_of_not_lt hlt
      have hcrest := List.pairwise_cons.mp hparts.2
      have hsort' : (b :: rest).Pairwise (fun a c => a.priority ≤ c.priority) :=
        List.pairwise_cons.mpr
          ⟨fun x hx => hparts.1 x (List.mem_cons_of_mem c hx), hcrest.2⟩
      obtain ⟨r, heq, hmem, hmin, htie⟩ := ih b hsort'
      have hrb : r.pricing.costPer1KTokens ≤ b.pricing.costPer1KTokens :=
        hmin b (List.mem_cons_self b rest)
      refine ⟨r, ?_, ?_, ?_, ?_⟩
      · simpa [hlt] using heq
      · rcases List.mem_cons.mp hmem with hrb' | hrtail
        · exact hrb' ▸ List.mem_cons_self b (c :: rest)
        · exact List.mem_cons_of_mem b (List.mem_cons_of_mem c hrtail)
      · intro q hq
        rcases List.mem_cons.mp hq with hqb | hqtail
        · exact hqb ▸ hrb
        · rcases List.mem_cons.mp hqtail with hqc | hqrest
          · exact hqc ▸ le_trans hrb hge
          · exact hmin q (List.mem_cons_of_mem b hqrest)
      · intro q hq hqcost
        rcases List.mem_cons.mp hq with hqb | hqtail
        · exact htie q (hqb ▸ List.mem_cons_self b rest) hqcost
        · rcases List.mem_cons.mp hqtail with hqc | hqrest
          · subst hqc
            have hbr : b.pricing.costPer1KTokens = r.pricing.costPer1KTokens :=
              le_antisymm (hqcost ▸ hge) hrb
            exact le_trans (htie b (List.mem_cons_self b rest) hbr) hbc
          · exact htie q (List.mem_cons_of_mem b hqrest) hqcost

/-- When every candidate's endpoint fails, the fallback loop always ends
in the all-failed 503 carrying the configured provider names. -/
theorem handleFallbackLoop_allFail
    (outcomes : String → CallOutcome) (now : JSDate) (request : AIRequest)
    (e : String) (names : List String) (chain : List AIProvider)
    (st : ManagerState) (attempts : List String)
    (h : ∀ p ∈ chain, (outcomes p.id).isFailure = true) :
    (handleFallbackLoop outcomes now request e names chain st attempts).1 =
      .allFailed "All AI providers are currently unavailable" e names := by
  induction chain generalizing st attempts with
  | nil => rfl
  | cons p rest ih =>
    have hp : (outcomes p.id).isFailure = true := h p (List.mem_cons_self p rest)
    have hrest : ∀ q ∈ rest, (outcomes q.id).isFailure = true :=
      fun q hq => h q (List.mem_cons_of_mem p hq)
    unfold handleFallbackLoop
    cases hcu : (canUseProvider st now p.id).1 with
    | false =>
      simp only [hcu, Bool.false_eq_true, if_false]
      exact ih st attempts hrest
    | true =>
      cases ho : outcomes p.id with
      | success d => rw [ho] at hp; simp [CallOutcome.isFailure] at hp
      | failure s t =>
        simp only [hcu, if_true, executeAIRequest, ho]
        exact ih _ _ hrest

/-- The fallback loop dispatches at most one call per chain candidate. -/
theorem handleFallbackLoop_attempts_length
    (outcomes : String → CallOutcome) (now : JSDate) (request : AIRequest)
    (e : String) (names : List String) (chain : List AIProvider)
    (st : ManagerState) (attempts : List String) :
    (handleFallbackLoop outcomes now request e names chain st
        attempts).2.2.length ≤ attempts.length + chain.length := by
  induction chain generalizing st attempts with
  | nil => simp [handleFallbackLoop]
  | cons p rest ih =>
    unfold handleFallbackLoop
    cases hcu : (canUseProvider st now p.id).1 with
    | false =>
      simp only [hcu, Bool.false_eq_true, if_false]
      exact le_trans (ih st attempts) (by simp [Nat.add_le_add_iff_left])
    | true =>
      cases ho : executeAIRequest outcomes p { request with provider := some p.id } with
      | ok resp =>
        simp only [hcu, if_true, ho]
        simp [List.length_append]
      | error err =>
        simp only [hcu, if_true, ho]
        refine le_trans (ih _ (attempts ++ [p.id])) ?_
        simp [List.length_append]
        omega

/-!
## Claim theorems
-/

/-- C8: on every successful execution, absent token fields default to 0,
`totalTokens` is the sum of prompt and completion tokens, and
`cost = (totalTokens / 1000) * costPer1KTokens`; in particular 1000
prompt tokens and 500 completion tokens at 0.002 per 1K tokens cost
exactly 0.003. -/
theorem cost_computation_spec :
    (∀ (provider : AIProvider) (data : ProviderResponseData),
      (parseProviderResponse provider data).usage.promptTokens =
        data.prompt_tokens.getD 0 ∧
      (parseProviderResponse provider data).usage.completionTokens =
        data.completion_tokens.getD 0 ∧
      (parseProviderResponse provider data).usage.totalTokens =
        data.prompt_tokens.getD 0 + data.completion_tokens.getD 0 ∧
      (parseProviderResponse provider data).usage.cost =
        (((data.prompt_tokens.getD 0 + data.completion_tokens.getD 0 : ℕ) : ℚ)
            / 1000) * provider.pricing.costPer1KTokens) ∧
    (parseProviderResponse costExampleProvider costExampleData).usage.cost =
      (0.003 : ℚ) := by
  constructor
  · intro provider data
    exact ⟨rfl, rfl, rfl, rfl⟩
  · show (((1000 + 500 : ℕ) : ℚ) / 1000) *
        costExampleProvider.pricing.costPer1KTokens = (0.003 : ℚ)
    rw [show costExampleProvider.pricing.costPer1KTokens =
        (⟨1, 500, by decide, by decide⟩ : ℚ) from rfl, Rat.mk'_eq_divInt]
    norm_num [Rat.divInt_eq_div]

/-- C10: passing `maxCostPer1KTokens = 0` to `getBestProvider` is the
same as passing no cost bound (the value is falsy, so the filter is
skipped); in particular a provider with positive cost is still
returned. -/
theorem zero_max_cost_unfiltered :
    (∀ (registry : List AIProvider) (env : Env) (ft : Option Feature),
      getBestProvider registry env
          (some { feature := ft, maxCostPer1KTokens := some 0 }) =
        getBestProvider registry env
          (some { feature := ft, maxCostPer1KTokens := none })) ∧
    getBestProvider AI_PROVIDERS envAllKeys
        (some { feature := some .chat, maxCostPer1KTokens := some 0 }) =
      some openrouterProvider ∧
    0 < openrouterProvider.pricing.costPer1KTokens := by
  refine ⟨?_, by decide, by decide⟩
  intro registry env ft
  simp [getBestProvider]

/-- C1 counterexample: in the spec's own scenario — provider A (priority
1, daily quota 1, already used once today) and provider B (priority 2,
unused), both credentialed and chat-capable — `getBestProvider` still
returns A, the provider whose remaining quota is 0, not B. -/
theorem selection_quota_counterexample :
    hasApiKey envAllKeys providerA = true ∧
    hasApiKey envAllKeys providerB = true ∧
    providerA.features.get .chat = true ∧
    providerB.features.get .chat = true ∧
    (canUseProvider stABused day0 "a").1 = false ∧
    (canUseProvider stABused day0 "b").1 = true ∧
    getBestProvider registryAB envAllKeys
      (some { feature := some .chat, maxCostPer1KTokens := none }) =
      some providerA := by
  decide

/-- C1 amended: `getBestProvider` never consults quota state — in the
A/B scenario it returns A (the lowest `priority` credentialed
chat-capable provider) for every usage state, even one in which
`canUseProvider` reports A's daily quota as exhausted. -/
theorem selection_ignores_quota (st : ManagerState) (now : JSDate)
    (_hA : (canUseProvider st now "a").1 = false) :
    getBestProvider registryAB envAllKeys
      (some { feature := some .chat, maxCostPer1KTokens := none }) =
      some providerA := by
  decide

/-- Witness for `selection_ignores_quota` at the concrete exhausted
state. -/
theorem selection_ignores_quota_witness :
    (canUseProvider stABused day0 "a").1 = false ∧
    getBestProvider registryAB envAllKeys
      (some { feature := some .chat, maxCostPer1KTokens := none }) =
      some providerA :=
  ⟨by decide, selection_ignores_quota stABused day0 (by decide)⟩

/-- C2 counterexample: requesting `provider: "openai"` in an environment
where only OpenRouter has a credential does not fail with
NotFound/ConfigurationError — the engine silently substitutes
OpenRouter. -/
theorem explicit_provider_substituted :
    hasApiKey envOpenrouterOnly openaiProvider = false ∧
    (selectOptimalProvider AI_PROVIDERS envOpenrouterOnly
        (mkAIManager AI_PROVIDERS envOpenrouterOnly day0) day0
        openaiRequest).1 = some openrouterProvider ∧
    openrouterProvider.id ≠ openaiProvider.id := by
  decide

/-- C2 amended: when the caller-specified provider is found among the
currently credentialed providers and passes `canUseProvider`, exactly
that provider is returned; but when it fails the availability check the
engine falls through to automatic selection and may return a different
provider instead of NotFound. -/
theorem explicit_provider_honored_when_usable (registry : List AIProvider)
    (env : Env) (st : ManagerState) (now : JSDate) (request : AIRequest)
    (pid : String) (prov : AIProvider)
    (hpid : request.provider = some pid) (hne : pid ≠ "")
    (hfind : (getAvailableProviders registry env).find?
      (fun p => p.id == pid) = some prov)
    (hcan : (canUseProvider st now prov.id).1 = true) :
    (selectOptimalProvider registry env st now request).1 = some prov := by
  unfold selectOptimalProvider
  simp only [hpid, if_pos hne, hfind, hcan, if_true]

/-- Witness for `explicit_provider_honored_when_usable`: requesting
OpenAI with every credential present yields exactly OpenAI. -/
theorem explicit_provider_honored_when_usable_witness :
    openaiRequest.provider = some "openai" ∧
    (getAvailableProviders AI_PROVIDERS envAllKeys).find?
      (fun p => p.id == "openai") = some openaiProvider ∧
    (canUseProvider st0 day0 openaiProvider.id).1 = true ∧
    (selectOptimalProvider AI_PROVIDERS envAllKeys st0 day0
      openaiRequest).1 = some openaiProvider :=
  ⟨by decide, by decide, by decide,
   explicit_provider_honored_when_usable AI_PROVIDERS envAllKeys st0 day0
     openaiRequest "openai" openaiProvider (by decide) (by decide)
     (by decide) (by decide)⟩

/-- C5 counterexample: `recordUsage` never resets the counter — after a
recorded request on an exhausted-window counter the count is 2 with the
old `lastReset` stamp, whatever the wall-clock day is — and
`canUseProvider` called one month later (a different calendar day with
the same day-of-month) also performs no reset: the counter keeps
`requests = 1` and its old window start. -/
theorem day_rollover_counterexample :
    statsFor (recordUsage stUsedOnce "openrouter") "openrouter" =
      some { requests := 2, lastReset := day0 } ∧
    monthLater ≠ day0 ∧
    monthLater.getDate = day0.getDate ∧
    canUseProvider stUsedOnce monthLater "openrouter" = (true, stUsedOnce) ∧
    statsFor stUsedOnce "openrouter" =
      some { requests := 1, lastReset := day0 } := by
  decide

/-- C5 amended: the lazy rollover happens only inside `canUseProvider`,
and only when `getDate()` — the day of the month, not the full calendar
day — differs from the stored `lastReset`; it then zeroes the counter
and restamps it with the current time, while `recordUsage` only ever
increments the counter and never touches `lastReset`. -/
theorem rollover_day_of_month_only (st : ManagerState) (now : JSDate)
    (pid : String) (prov : AIProvider) (stats : UsageStat)
    (hfind : st.availableProviders.find? (fun p => p.id == pid) = some prov)
    (hstats : st.usageStats.find? (fun e => e.1 == pid) = some (pid, stats))
    (hday : now.getDate ≠ stats.lastReset.getDate) :
    statsFor (canUseProvider st now pid).2 pid =
      some { requests := 0, lastReset := now } ∧
    (canUseProvider st now pid).1 =
      decide (0 < prov.rateLimit.requestsPerDay) ∧
    statsFor (recordUsage st pid) pid =
      some { requests := stats.requests + 1, lastReset := stats.lastReset } := by
  refine ⟨?_, ?_, statsFor_recordUsage hstats⟩
  · unfold canUseProvider
    simp only [hfind, hstats]
    rw [if_pos hday]
    unfold statsFor
    rw [find?_setStats _ hstats]
    rfl
  · unfold canUseProvider
    simp only [hfind, hstats]
    rw [if_pos hday]

/-- Witness for `rollover_day_of_month_only`: the counter used once on
`day0` is reset by `canUseProvider` on the next calendar day, while
`recordUsage` leaves its window stamp alone. -/
theorem rollover_day_of_month_only_witness :
    st0.availableProviders.find? (fun p => p.id == "openrouter") =
      some openrouterProvider ∧
    st0.usageStats.find? (fun e => e.1 == "openrouter") =
      some ("openrouter", { requests := 0, lastReset := day0 }) ∧
    nextDay.getDate ≠ (day0 : JSDate).getDate ∧
    (statsFor (canUseProvider st0 nextDay "openrouter").2 "openrouter" =
        some { requests := 0, lastReset := nextDay } ∧
      (canUseProvider st0 nextDay "openrouter").1 =
        decide (0 < openrouterProvider.rateLimit.requestsPerDay) ∧
      statsFor (recordUsage st0 "openrouter") "openrouter" =
        some { requests := 0 + 1, lastReset := day0 }) :=
  ⟨by decide, by decide, by decide,
   rollover_day_of_month_only st0 nextDay "openrouter" openrouterProvider
     { requests := 0, lastReset := day0 } (by decide) (by decide) (by decide)⟩

/-- C9: a provider whose credential variable is blank at `AIManager`
construction is permanently invisible to the quota machinery —
`canUseProvider` answers false (leaving the state untouched) and
`recordUsage` is a no-op for it, for every later wall-clock time, even
after the variable is set — while `getAvailableProviders` re-reads the
environment and does list it. -/
theorem credential_snapshot_quota_exclusion (registry : List AIProvider)
    (env0 env1 : Env) (now0 : JSDate) (p : AIProvider)
    (hmiss : ∀ q ∈ registry, q.id = p.id → hasApiKey env0 q = false)
    (hmem : p ∈ registry) (hlater : hasApiKey env1 p = true) :
    (∀ now : JSDate,
      canUseProvider (mkAIManager registry env0 now0) now p.id =
        (false, mkAIManager registry env0 now0)) ∧
    recordUsage (mkAIManager registry env0 now0) p.id =
      mkAIManager registry env0 now0 ∧
    p ∈ getAvailableProviders registry env1 := by
  have hfind : (mkAIManager registry env0 now0).availableProviders.find?
      (fun q => q.id == p.id) = none := by
    apply List.find?_eq_none.mpr
    intro x hx hbeq
    rcases List.mem_filter.mp hx with ⟨hxr, hxkey⟩
    have hxid : x.id = p.id := by simpa using hbeq
    rw [hmiss x hxr hxid] at hxkey
    exact Bool.false_ne_true hxkey
  have hstats : (mkAIManager registry env0 now0).usageStats.find?
      (fun e => e.1 == p.id) = none := by
    apply List.find?_eq_none.mpr
    intro e he hbeq
    rcases List.mem_map.mp he with ⟨q, hq, hqe⟩
    rcases List.mem_filter.mp hq with ⟨hqr, hqkey⟩
    have hqid : q.id = p.id := by
      rw [← hqe] at hbeq
      simpa using hbeq
    rw [hmiss q hqr hqid] at hqkey
    exact Bool.false_ne_true hqkey
  refine ⟨?_, ?_, ?_⟩
  · intro now
    unfold canUseProvider
    simp only [hfind]
  · unfold recordUsage
    simp only [hstats]
  · exact mem_sortByPriority.mpr (List.mem_filter.mpr ⟨hmem, hlater⟩)

/-- Witness for `credential_snapshot_quota_exclusion`: Anthropic's key is
blank at construction and set afterwards. -/
theorem credential_snapshot_quota_exclusion_witness :
    (∀ q ∈ AI_PROVIDERS, q.id = anthropicProvider.id →
      hasApiKey envNoAnthropic q = false) ∧
    anthropicProvider ∈ AI_PROVIDERS ∧
    hasApiKey envAllKeys anthropicProvider = true ∧
    ((∀ now : JSDate,
        canUseProvider (mkAIManager AI_PROVIDERS envNoAnthropic day0) now
          anthropicProvider.id =
          (false, mkAIManager AI_PROVIDERS envNoAnthropic day0)) ∧
      recordUsage (mkAIManager AI_PROVIDERS envNoAnthropic day0)
          anthropicProvider.id =
        mkAIManager AI_PROVIDERS envNoAnthropic day0 ∧
      anthropicProvider ∈ getAvailableProviders AI_PROVIDERS envAllKeys) :=
  ⟨by decide, by decide, by decide,
   credential_snapshot_quota_exclusion AI_PROVIDERS envNoAnthropic envAllKeys
     day0 anthropicProvider (by decide) (by decide) (by decide)⟩

/-- C7: with at least one available capability-matching candidate,
`getCostOptimalProvider` returns a candidate whose `costPer1KTokens` is
minimal over the chain, and among cost ties it has the least `priority`
value (the chain is priority-ascending and the `reduce` keeps the first
minimum). -/
theorem cost_goal_selects_cheapest (registry : List AIProvider) (env : Env)
    (taskType : Feature)
    (hne : createProviderChain registry env taskType ≠ []) :
    ∃ p, getCostOptimalProvider registry env taskType = some p ∧
      p ∈ createProviderChain registry env taskType ∧
      (∀ q ∈ createProviderChain registry env taskType,
        p.pricing.costPer1KTokens ≤ q.pricing.costPer1KTokens) ∧
      (∀ q ∈ createProviderChain registry env taskType,
        q.pricing.costPer1KTokens = p.pricing.costPer1KTokens →
          p.priority ≤ q.priority) := by
  rcases hchain : createProviderChain registry env taskType with _ | ⟨c, rest⟩
  · exact absurd hchain hne
  · have hsort : (createProviderChain registry env taskType).Pairwise
        (fun a b => a.priority ≤ b.priority) := sortByPriority_pairwise _
    rw [hchain] at hsort
    obtain ⟨r, heq, hmem, hmin, htie⟩ := costFold_spec rest c hsort
    refine ⟨r, ?_, ?_, ?_, ?_⟩
    · unfold getCostOptimalProvider
      rw [hchain, List.foldl_cons]
      exact heq
    · exact hmem
    · exact hmin
    · exact htie

/-- Witness for `cost_goal_selects_cheapest` over the full registry with
every credential present (the concrete minimum is Groq). -/
theorem cost_goal_selects_cheapest_witness :
    createProviderChain AI_PROVIDERS envAllKeys .chat ≠ [] ∧
    (∃ p, getCostOptimalProvider AI_PROVIDERS envAllKeys .chat = some p ∧
      p ∈ createProviderChain AI_PROVIDERS envAllKeys .chat ∧
      (∀ q ∈ createProviderChain AI_PROVIDERS envAllKeys .chat,
        p.pricing.costPer1KTokens ≤ q.pricing.costPer1KTokens) ∧
      (∀ q ∈ createProviderChain AI_PROVIDERS envAllKeys .chat,
        q.pricing.costPer1KTokens = p.pricing.costPer1KTokens →
          p.priority ≤ q.priority)) :=
  ⟨by decide,
   cost_goal_selects_cheapest AI_PROVIDERS envAllKeys .chat (by decide)⟩

/-- C3 counterexample: with every credential present, the primary
(OpenRouter) failing and OpenAI succeeding, three outbound calls are
dispatched in one logical request, yet `recordUsage` is never invoked —
neither for the failed primary, nor for the failed fallback dispatch,
nor for the successful fallback call. -/
theorem usage_recording_counterexample :
    runPrimaryFails.attempts = ["openrouter", "openrouter", "openai"] ∧
    runPrimaryFails.recorded = [] := by
  decide

/-- C3 amended: `recordUsage` is invoked at most once per logical
request — exactly once, for the selected primary provider, when its
dispatch succeeds, and never at all when the primary fails, regardless
of how many fallback calls are then dispatched. -/
theorem usage_recorded_only_on_primary_success (registry : List AIProvider)
    (env : Env) (outcomes : String → CallOutcome) (now : JSDate)
    (request : AIRequest) (st : ManagerState) (p : AIProvider)
    (st1 : ManagerState)
    (hmsg : request.message ≠ "")
    (hsel : selectOptimalProvider registry env st now request =
      (some p, st1)) :
    (processAIRequest registry env outcomes now request st).recorded =
      (if (outcomes p.id).isFailure then [] else [p.id]) := by
  unfold processAIRequest
  rw [if_neg hmsg, hsel]
  cases ho : outcomes p.id with
  | success d => simp [executeAIRequest, ho, CallOutcome.isFailure]
  | failure s t => simp [executeAIRequest, ho, CallOutcome.isFailure]

/-- Witness for `usage_recorded_only_on_primary_success` on the run whose
primary fails. -/
theorem usage_recorded_only_on_primary_success_witness :
    chatRequest.message ≠ "" ∧
    selectOptimalProvider AI_PROVIDERS envAllKeys st0 day0 chatRequest =
      (some openrouterProvider, st0) ∧
    (processAIRequest AI_PROVIDERS envAllKeys outcomesOpenrouterFails day0
        chatRequest st0).recorded =
      (if (outcomesOpenrouterFails openrouterProvider.id).isFailure then []
       else [openrouterProvider.id]) :=
  ⟨by decide, by decide,
   usage_recorded_only_on_primary_success AI_PROVIDERS envAllKeys
     outcomesOpenrouterFails day0 chatRequest st0 openrouterProvider st0
     (by decide) (by decide)⟩

/-- C4 counterexample: with no caller-specified provider, the
auto-selected primary (OpenRouter) is not excluded from the fallback
chain, so one logical request dispatches to OpenRouter twice. -/
theorem repeated_attempt_counterexample :
    chatRequest.provider = none ∧
    runPrimaryFails.attempts = ["openrouter", "openrouter", "openai"] ∧
    runPrimaryFails.attempts.count "openrouter" = 2 := by
  decide

/-- C4 amended: the fallback chain excludes exactly the caller-specified
provider id — so an explicitly requested primary is never re-attempted
and the chain itself contains no duplicate provider — but an
auto-selected primary is not excluded and may be attempted again. -/
theorem fallback_chain_excludes_caller_specified (registry : List AIProvider)
    (env : Env) (request : AIRequest) (pid : String)
    (hpid : request.provider = some pid)
    (hnodup : (registry.map (fun p => p.id)).Nodup) :
    (∀ p ∈ fallbackProviders registry env request, p.id ≠ pid) ∧
    ((fallbackProviders registry env request).map (fun p => p.id)).Nodup := by
  constructor
  · intro p hp
    have hp' := List.mem_of_mem_take hp
    have := (List.mem_filter.mp hp').2
    rw [hpid] at this
    simpa using this
  · have h1 : (((getAvailableProviders registry env).filter
        (fun p => p.features.get .chat)).map (fun p => p.id)).Nodup := by
      have hav : ((getAvailableProviders registry env).map
          (fun p => p.id)).Nodup :=
        ((sortByPriority_perm _).map (fun p : AIProvider => p.id)).nodup_iff.mpr
          (hnodup.sublist
            ((List.filter_sublist registry).map (fun p : AIProvider => p.id)))
      exact hav.sublist
        ((List.filter_sublist (getAvailableProviders registry env)).map
          (fun p : AIProvider => p.id))
    have h2 : ((createProviderChain registry env .chat).map
        (fun p => p.id)).Nodup :=
      ((sortByPriority_perm _).map (fun p : AIProvider => p.id)).nodup_iff.mpr h1
    have h3 : (((createProviderChain registry env .chat).filter
        (fun p => match request.provider with
          | some pid => p.id ≠ pid
          | none => true)).map (fun p : AIProvider => p.id)).Nodup :=
      h2.sublist
        ((List.filter_sublist (createProviderChain registry env .chat)).map
          (fun p : AIProvider => p.id))
    exact h3.sublist ((List.take_sublist 2 _).map (fun p : AIProvider => p.id))

/-- Witness for `fallback_chain_excludes_caller_specified`: an explicit
OpenAI request over the full registry. -/
theorem fallback_chain_excludes_caller_specified_witness :
    openaiRequest.provider = some "openai" ∧
    ((AI_PROVIDERS.map (fun p => p.id)).Nodup) ∧
    ((∀ p ∈ fallbackProviders AI_PROVIDERS envAllKeys openaiRequest,
        p.id ≠ "openai") ∧
      ((fallbackProviders AI_PROVIDERS envAllKeys openaiRequest).map
        (fun p => p.id)).Nodup) :=
  ⟨by decide, by decide,
   fallback_chain_excludes_caller_specified AI_PROVIDERS envAllKeys
     openaiRequest "openai" (by decide) (by decide)⟩

/-- C6 counterexample: with all six providers credentialed and every
endpoint failing, the 503 body's provider list has length 6, while only
2 unique candidates (OpenRouter and OpenAI) were actually tried — the
list carried is the configured-provider list, not an attempt list of
the tried candidates. -/
theorem exhausted_fallback_counterexample :
    respAllFailedWith runAllFail.response
      ((getAvailableProviders AI_PROVIDERS envAllKeys).map
        (fun p => p.name)) = true ∧
    ((getAvailableProviders AI_PROVIDERS envAllKeys).map
      (fun p => p.name)).length = 6 ∧
    runAllFail.attempts = ["openrouter", "openrouter", "openai"] ∧
    runAllFail.attempts.dedup.length = 2 := by
  decide

/-- C6 amended: when the primary and every fallback candidate fail, the
controller returns (never throws) the all-failed 503 carrying the
original error and the names of all currently credentialed providers —
never a success — and dispatches at most primary + 2 calls. -/
theorem exhausted_fallback_all_failed (registry : List AIProvider)
    (env : Env) (outcomes : String → CallOutcome) (now : JSDate)
    (request : AIRequest) (st : ManagerState) (p : AIProvider)
    (st1 : ManagerState)
    (hmsg : request.message ≠ "")
    (hsel : selectOptimalProvider registry env st now request =
      (some p, st1))
    (hfail : ∀ pid, (outcomes pid).isFailure = true) :
    respAllFailedWith
      (processAIRequest registry env outcomes now request st).response
      ((getAvailableProviders registry env).map (fun q => q.name)) = true ∧
    respIsSuccess
      (processAIRequest registry env outcomes now request st).response =
      false ∧
    (processAIRequest registry env outcomes now request st).attempts.length ≤
      3 := by
  unfold processAIRequest
  rw [if_neg hmsg, hsel]
  cases ho : outcomes p.id with
  | success d =>
    have hf := hfail p.id
    rw [ho] at hf
    simp [CallOutcome.isFailure] at hf
  | failure s' t' =>
    simp only [executeAIRequest, ho]
    have hhf := handleFallbackLoop_allFail outcomes now request
      ("AI provider " ++ p.id ++ " failed: " ++ toString s' ++ " " ++ t')
      ((getAvailableProviders registry env).map (fun q => q.name))
      (fallbackProviders registry env request) st1 [p.id]
      (fun q _ => hfail q.id)
    have hlen := handleFallbackLoop_attempts_length outcomes now request
      ("AI provider " ++ p.id ++ " failed: " ++ toString s' ++ " " ++ t')
      ((getAvailableProviders registry env).map (fun q => q.name))
      (fallbackProviders registry env request) st1 [p.id]
    refine ⟨?_, ?_, ?_⟩
    · rw [show (handleFallback registry env outcomes now request
          ("AI provider " ++ p.id ++ " failed: " ++ toString s' ++ " " ++ t')
          st1 [p.id]).1 =
          ControllerResponse.allFailed
            "All AI providers are currently unavailable"
            ("AI provider " ++ p.id ++ " failed: " ++ toString s' ++ " " ++ t')
            ((getAvailableProviders registry env).map (fun q => q.name))
          from hhf]
      simp [respAllFailedWith]
    · rw [show (handleFallback registry env outcomes now request
          ("AI provider " ++ p.id ++ " failed: " ++ toString s' ++ " " ++ t')
          st1 [p.id]).1 =
          ControllerResponse.allFailed
            "All AI providers are currently unavailable"
            ("AI provider " ++ p.id ++ " failed: " ++ toString s' ++ " " ++ t')
            ((getAvailableProviders registry env).map (fun q => q.name))
          from hhf]
      rfl
    · refine le_trans hlen ?_
      have : (fallbackProviders registry env request).length ≤ 2 := by
        unfold fallbackProviders
        exact le_trans (List.length_take_le 2 _) (le_refl 2)
      simpa using Nat.add_le_add_left this 1

/-- Witness for `exhausted_fallback_all_failed` on the run in which every
endpoint fails. -/
theorem exhausted_fallback_all_failed_witness :
    chatRequest.message ≠ "" ∧
    selectOptimalProvider AI_PROVIDERS envAllKeys st0 day0 chatRequest =
      (some openrouterProvider, st0) ∧
    (∀ pid, (outcomesAllFail pid).isFailure = true) ∧
    (respAllFailedWith runAllFail.response
        ((getAvailableProviders AI_PROVIDERS envAllKeys).map
          (fun q => q.name)) = true ∧
      respIsSuccess runAllFail.response = false ∧
      runAllFail.attempts.length ≤ 3) :=
  ⟨by decide, by decide, fun _ => rfl,
   exhausted_fallback_all_failed AI_PROVIDERS envAllKeys outcomesAllFail day0
     chatRequest st0 openrouterProvider st0 (by decide) (by decide)
     (fun _ => rfl)⟩
